import Mathlib

/-!
Verification of the NVRC/L-Systems repository: a shallow embedding of the
grammar engine, the move mapper, the pseudo-random grammar constructor and
the renderer's two-pass coordinate normalization, with theorems settling the
specification's claims about them.

Python floats are modelled by exact rationals (`ℚ`); the literal `0.00001`
from the source becomes `1 / 100000`.
-/

namespace LSystems

/-- The measured bounding box `(min_x, min_y, max_x, max_y)` produced by the
measure pass (`self._turtle.bounding_box.to_tuple()` in
`LSystemRenderer._update_world_coordinates`). -/
structure BoundingBox where
  minx : ℚ
  miny : ℚ
  maxx : ℚ
  maxy : ℚ

/-- The four arguments `(llx, lly, urx, ury)` handed to
`screen.setworldcoordinates` by `_update_world_coordinates`. -/
structure WorldWindow where
  llx : ℚ
  lly : ℚ
  urx : ℚ
  ury : ℚ

/-- The guard constant `epsilon = 0.00001` of `_update_world_coordinates`. -/
def epsilon : ℚ := 1 / 100000

/-- Measured width `w = maxx - minx` (renderer.py line 292). -/
def bboxW (b : BoundingBox) : ℚ := b.maxx - b.minx

/-- Measured height `h = maxy - miny` (renderer.py line 293). -/
def bboxH (b : BoundingBox) : ℚ := b.maxy - b.miny

/-- The fit factor `r = max(w, h) / (min(w, h) + epsilon)` (renderer.py line 295). -/
def fitScale (b : BoundingBox) : ℚ :=
  max (bboxW b) (bboxH b) / (min (bboxW b) (bboxH b) + epsilon)

/-- Literal embedding of the viewport-fit step of
`LSystemRenderer._update_world_coordinates` (renderer.py lines 291-299):

    w = maxx - minx
    h = maxy - miny
    epsilon = 0.00001
    r = max(w, h) / (min(w, h) + epsilon)
    if maxx - minx > maxy - miny:
        setworldcoordinates(minx, miny - 1, maxx, (maxy - 1) * r)
    else:
        setworldcoordinates(minx, miny, maxx * r, maxy)
-/
def updateWorldCoordinates (b : BoundingBox) : WorldWindow :=
  let w := b.maxx - b.minx
  let h := b.maxy - b.miny
  let r := max w h / (min w h + epsilon)
  if b.maxx - b.minx > b.maxy - b.miny then
    ⟨b.minx, b.miny - 1, b.maxx, (b.maxy - 1) * r⟩
  else
    ⟨b.minx, b.miny, b.maxx * r, b.maxy⟩

/-- A point of the plane lies inside the measured bounding box (inclusive). -/
def pointInBoundingBox (b : BoundingBox) (x y : ℚ) : Prop :=
  b.minx ≤ x ∧ x ≤ b.maxx ∧ b.miny ≤ y ∧ y ≤ b.maxy

/-- A point of the plane lies inside the world-coordinate window (inclusive). -/
def windowContains (w : WorldWindow) (x y : ℚ) : Prop :=
  w.llx ≤ x ∧ x ≤ w.urx ∧ w.lly ≤ y ∧ y ≤ w.ury

/-- The viewport-fit behaviour exactly as claim C1 words it (stated from the
spec's words, to be compared with `updateWorldCoordinates`): when `w > h` the
window's horizontal extent equals the measured extent `w` and its vertical
extent is the measured extent `h` stretched by `r`; otherwise symmetrically
the vertical extent equals `h` and the horizontal extent is `w` stretched
by `r`. -/
def specViewportStretch (b : BoundingBox) : Prop :=
  (bboxW b > bboxH b →
    (updateWorldCoordinates b).urx - (updateWorldCoordinates b).llx = bboxW b ∧
    (updateWorldCoordinates b).ury - (updateWorldCoordinates b).lly
      = fitScale b * bboxH b) ∧
  (¬ bboxW b > bboxH b →
    (updateWorldCoordinates b).ury - (updateWorldCoordinates b).lly = bboxH b ∧
    (updateWorldCoordinates b).urx - (updateWorldCoordinates b).llx
      = fitScale b * bboxW b)

/-- Modelled from the spec: the Operator Vocabulary enumeration
`OperatorSymbols` lives in `l_system/rendering/turtle.py`, which is not under
src/; section 4.2 of the spec fixes it as the closed set ForwardDraw,
ForwardNoDraw, TurnLeft, TurnRight, Push, Pop. -/
inductive OperatorSymbols where
  | forwardDraw
  | forwardNoDraw
  | turnLeft
  | turnRight
  | push
  | pop
deriving DecidableEq

/-- Modelled from the spec: the `.value` string of each `OperatorSymbols`
member (the concrete characters are not visible under src/; the standard
turtle-command characters of the glossary are used — no claim depends on the
particular strings). -/
def OperatorSymbols.value : OperatorSymbols → String
  | .forwardDraw => "F"
  | .forwardNoDraw => "f"
  | .turnLeft => "+"
  | .turnRight => "-"
  | .push => "["
  | .pop => "]"

/-- The list `[e.value for e in OperatorSymbols]` built by
`PseudoRandomAlphabet.__init__` (pseudo_random.py line 19). -/
def operatorValues : List String :=
  [OperatorSymbols.forwardDraw, OperatorSymbols.forwardNoDraw,
   OperatorSymbols.turnLeft, OperatorSymbols.turnRight,
   OperatorSymbols.push, OperatorSymbols.pop].map OperatorSymbols.value

/-- An L-system grammar: the `Lsystem` data of `l_system/base.py`, reduced to
the two properties every concrete grammar exposes. The field `start` embeds
the Python `axiom` property (that word is a Lean keyword); `productions`
embeds the symbol-to-replacement dictionary as an association list with
unique keys. -/
structure Lsystem where
  start : String
  productions : List (String × String)

/-- Modelled from the spec: one round of parallel substitution of
`Lsystem.apply` (`l_system/base.py` is not under src/). Section 4.1: "each
round builds a new string by mapping every symbol of the current string
through `productions` (unmapped symbols pass through unchanged) and
concatenating in order". A symbol is a single character of the current
string. -/
def rewriteOnce (productions : List (String × String)) (s : String) : String :=
  String.join (s.toList.map (fun c =>
    match productions.lookup (String.mk [c]) with
    | some r => r
    | none => String.mk [c]))

/-- Modelled from the spec: `Lsystem.apply(n)` (`l_system/base.py` is not
under src/). Section 4.1: `apply(n)` performs `n` rounds of parallel
substitution starting from the axiom. -/
def applyRounds (g : Lsystem) : Nat → String
  | 0 => g.start
  | n + 1 => rewriteOnce g.productions (applyRounds g n)

/-- Embedding of `random.choice(seq)` as used by
`PseudoRandomAlphabet.__init__`: on an empty sequence Python raises
`IndexError` (here `none`); otherwise it returns the element at the index
drawn by the random source, modelled by an arbitrary draw `i` reduced modulo
the length. -/
def randomChoice (seq : List String) (i : Nat) : Option String :=
  if h : 0 < seq.length then some (seq.get ⟨i % seq.length, Nat.mod_lt _ h⟩)
  else none

/-- Embedding of `PseudoRandomAlphabet.__init__` (pseudo_random.py lines
13-21): the axiom is `random.choice(alphabet)`, and the productions are the
one-entry dictionary `{axiom: random.choice(alphabet + operator values)}`.
The two random draws are made explicit as `i` and `j`; a failing
`random.choice` (empty sequence) makes the whole construction fail. -/
def mkPseudoRandomAlphabet (alphabet : List String) (i j : Nat) :
    Option Lsystem :=
  match randomChoice alphabet i with
  | none => none
  | some ax =>
    match randomChoice (alphabet ++ operatorValues) j with
    | none => none
    | some repl => some { start := ax, productions := [(ax, repl)] }

/-- Embedding of `self._turtle_conf.turtle_move_mapper.get(l_str, l_str)`
(renderer.py line 278): look the symbol up in the move-mapper dictionary and
fall back to the symbol itself when it is absent. -/
def mapperGet (mapper : List (String × String)) (s : String) : String :=
  match mapper.lookup s with
  | some v => v
  | none => s

/-- Embedding of `LSystemRenderer._run_all_moves` (renderer.py lines
270-279): enumerate the symbols of the generated string in order and resolve
each through the move mapper, yielding the sequence of moves handed to
`self._turtle.move`. Modelled from the spec in one respect: iterating the
`Lsystem` object (`l_system/base.py` is not under src/) is a lazy,
restartable, deterministic enumeration of the generated string's symbols
(spec section 4.1), embedded here as a fixed finite list. The progress-bar
and window-title updates of the loop touch no interpreter state and are
dropped. -/
def runAllMoves (symbols : List String) (mapper : List (String × String)) :
    List String :=
  symbols.map (fun s => mapperGet mapper s)

/-- The move sequence produced by the measure pass: `draw` calls
`_update_world_coordinates`, which calls `_run_all_moves` (renderer.py line
289) on the renderer's current `lsystem` and `turtle_move_mapper`. -/
def measurePassMoves (symbols : List String)
    (mapper : List (String × String)) : List String :=
  runAllMoves symbols mapper

/-- The move sequence produced by the draw pass: after the world coordinates
are updated, `draw` calls `_run_all_moves` again (renderer.py line 261) on
the same `lsystem` and `turtle_move_mapper`. -/
def drawPassMoves (symbols : List String)
    (mapper : List (String × String)) : List String :=
  runAllMoves symbols mapper

/-- The exceptions that can surface out of the body of
`LSystemRenderer.draw`: `turtle.Terminator` and `tkinter.TclError` (both
raised when the rendering window is closed or destroyed), or any other
exception. -/
inductive RenderExn where
  | terminator
  | tclError
  | other (msg : String)
deriving DecidableEq

/-- The outcome of `LSystemRenderer.draw` as seen by its caller. -/
inductive DrawOutcome where
  | completed
  | stopped
  | raised (e : RenderExn)
deriving DecidableEq

/-- Embedding of the exception boundary of `LSystemRenderer.draw`
(renderer.py lines 258-268): the whole body runs inside
`try: ... except (turtle.Terminator, tk.TclError): print("Exiting...")`, so a
`Terminator` or `TclError` escaping the body becomes the clean "rendering
stopped" outcome, while any other exception propagates. -/
def drawHandle (body : Except RenderExn Unit) : DrawOutcome :=
  match body with
  | .ok _ => .completed
  | .error .terminator => .stopped
  | .error .tclError => .stopped
  | .error e => .raised e

end LSystems

namespace LSystems

/-- C1 counterexample: at the measured bounding box `(0, 0, 10, 2)` (so
`w = 10 > h = 2`) the window emitted by the code is
`(0, -1, 10, (2 - 1) * r)`, whose vertical extent is `r + 1`, not the
stretched measured extent `r * 2`; the claim's stretch description is false. -/
theorem C1_counterexample :
    ¬ specViewportStretch ⟨0, 0, 10, 2⟩ := by
  intro hspec
  have hgt : bboxW (⟨0, 0, 10, 2⟩ : BoundingBox) > bboxH ⟨0, 0, 10, 2⟩ := by
    norm_num [bboxW, bboxH]
  have h := (hspec.1 hgt).2
  rw [show updateWorldCoordinates ⟨0, 0, 10, 2⟩
      = ⟨0, -1, 10, (2 - 1) * (1000000 / 200001 : ℚ)⟩ from by
    norm_num [updateWorldCoordinates, epsilon]] at h
  rw [show fitScale ⟨0, 0, 10, 2⟩ = (1000000 / 200001 : ℚ) from by
    norm_num [fitScale, bboxW, bboxH, epsilon]] at h
  norm_num [bboxH] at h

/-- C1 (amended): the fit factor is `r = max(w, h) / (min(w, h) + 1e-5)`, and
the window passed to `setworldcoordinates` is `(min_x, min_y - 1, max_x,
(max_y - 1) * r)` when `w > h` (so the horizontal extent is kept equal to the
measured extent `w`), and `(min_x, min_y, max_x * r, max_y)` otherwise (so the
vertical extent is kept equal to the measured extent `h`). -/
theorem C1_viewport_window (b : BoundingBox) :
    (bboxW b > bboxH b →
      updateWorldCoordinates b
        = ⟨b.minx, b.miny - 1, b.maxx, (b.maxy - 1) * fitScale b⟩ ∧
      (updateWorldCoordinates b).urx - (updateWorldCoordinates b).llx
        = bboxW b) ∧
    (¬ bboxW b > bboxH b →
      updateWorldCoordinates b
        = ⟨b.minx, b.miny, b.maxx * fitScale b, b.maxy⟩ ∧
      (updateWorldCoordinates b).ury - (updateWorldCoordinates b).lly
        = bboxH b) := by
  constructor
  · intro h
    have hw : updateWorldCoordinates b
        = ⟨b.minx, b.miny - 1, b.maxx, (b.maxy - 1) * fitScale b⟩ := by
      simp only [updateWorldCoordinates, fitScale, bboxW, bboxH]
      rw [if_pos (show b.maxx - b.minx > b.maxy - b.miny from h)]
    exact ⟨hw, by rw [hw]; simp [bboxW]⟩
  · intro h
    have hw : updateWorldCoordinates b
        = ⟨b.minx, b.miny, b.maxx * fitScale b, b.maxy⟩ := by
      simp only [updateWorldCoordinates, fitScale, bboxW, bboxH]
      rw [if_neg (show ¬ b.maxx - b.minx > b.maxy - b.miny from h)]
    exact ⟨hw, by rw [hw]; simp [bboxH]⟩

/-- C1 witness: the amended statement evaluated at the bounding box
`(0, 0, 10, 2)`, where `w = 10 > h = 2`. -/
theorem C1_viewport_window_witness :
    updateWorldCoordinates ⟨0, 0, 10, 2⟩
      = ⟨(0 : ℚ), (0 : ℚ) - 1, (10 : ℚ), ((2 : ℚ) - 1) * fitScale ⟨0, 0, 10, 2⟩⟩ ∧
    (updateWorldCoordinates ⟨0, 0, 10, 2⟩).urx
      - (updateWorldCoordinates ⟨0, 0, 10, 2⟩).llx = bboxW ⟨0, 0, 10, 2⟩ :=
  (C1_viewport_window ⟨0, 0, 10, 2⟩).1 (by norm_num [bboxW, bboxH])

/-- C2 is violated by the code: for the measured bounding box `(0, 0, 10, 10)`
(a square figure) the corner point `(10, 10)` of the figure lies outside the
world-coordinate window, because the window's right edge is
`maxx * r = 10 * (10 / (10 + 1e-5)) < 10`; the figure is clipped. -/
theorem C2_square_clipped :
    pointInBoundingBox ⟨0, 0, 10, 10⟩ 10 10 ∧
    ¬ windowContains (updateWorldCoordinates ⟨0, 0, 10, 10⟩) 10 10 := by
  constructor
  · norm_num [pointInBoundingBox]
  · rw [show updateWorldCoordinates ⟨0, 0, 10, 10⟩
        = ⟨0, 0, 10 * (1000000 / 1000001 : ℚ), 10⟩ from by
      norm_num [updateWorldCoordinates, epsilon]]
    norm_num [windowContains]

/-- C3: for every bounding box with non-negative width and height (including
the degenerate cases `w = 0` or `h = 0`), the denominator
`min(w, h) + epsilon` of the fit-factor computation is strictly positive, so
the division in `fitScale` never divides by zero. -/
theorem C3_denominator_pos (b : BoundingBox)
    (hw : 0 ≤ bboxW b) (hh : 0 ≤ bboxH b) :
    0 < min (bboxW b) (bboxH b) + epsilon := by
  have hmin : 0 ≤ min (bboxW b) (bboxH b) := le_min hw hh
  have heps : (0 : ℚ) < epsilon := by norm_num [epsilon]
  linarith

/-- C3 witness: the fully degenerate bounding box `(0, 0, 0, 0)` (no drawn
extent at all) still has a strictly positive denominator. -/
theorem C3_denominator_pos_witness :
    0 < min (bboxW ⟨0, 0, 0, 0⟩) (bboxH ⟨0, 0, 0, 0⟩) + epsilon :=
  C3_denominator_pos ⟨0, 0, 0, 0⟩ (by norm_num [bboxW]) (by norm_num [bboxH])

/-- C5: the measure pass and the draw pass of `draw()` produce the same move
sequence — they enumerate the same symbols in the same order and resolve each
symbol through the same move mapping (and, being pure functions of the
generated string and the mapping, two runs on identical inputs are
identical). -/
theorem C5_two_pass_agreement (symbols : List String)
    (mapper : List (String × String)) :
    measurePassMoves symbols mapper = drawPassMoves symbols mapper ∧
    ∀ (i : Nat) (s : String), symbols[i]? = some s →
      (drawPassMoves symbols mapper)[i]? = some (mapperGet mapper s) := by
  refine ⟨rfl, ?_⟩
  intro i s h
  simp [drawPassMoves, runAllMoves, List.getElem?_map, h]

/-- C5 witness: the two passes agree on the concrete generated string
`["F", "X"]` under the mapping `X ↦ F`, and the move at position 0 is the
mapped symbol. -/
theorem C5_two_pass_agreement_witness :
    measurePassMoves ["F", "X"] [("X", "F")]
      = drawPassMoves ["F", "X"] [("X", "F")] ∧
    (drawPassMoves ["F", "X"] [("X", "F")])[0]?
      = some (mapperGet [("X", "F")] "F") :=
  ⟨(C5_two_pass_agreement ["F", "X"] [("X", "F")]).1,
   (C5_two_pass_agreement ["F", "X"] [("X", "F")]).2 0 "F" rfl⟩

/-- C6: resolving a symbol through the move mapper yields the mapped value
when the symbol is a key of the mapping, and the symbol itself when it is
not; resolution is a total function and never fails. -/
theorem C6_mapper_resolve (mapper : List (String × String)) (s : String) :
    (∀ v, mapper.lookup s = some v → mapperGet mapper s = v) ∧
    (mapper.lookup s = none → mapperGet mapper s = s) := by
  constructor
  · intro v hv
    simp [mapperGet, hv]
  · intro hnone
    simp [mapperGet, hnone]

/-- C6 witness: under the mapping `A ↦ F`, the key `A` resolves to `F`. -/
theorem C6_mapper_resolve_witness :
    mapperGet [("A", "F")] "A" = "F" :=
  (C6_mapper_resolve [("A", "F")] "A").1 "F" (by rfl)

/-- C7: when the body of `draw()` is interrupted by the rendering window
being closed or destroyed — surfacing as a `Terminator` or `TclError`
exception — the exception boundary of `draw` converts it into the clean
"rendering stopped" outcome, and no exception reaches the caller. -/
theorem C7_draw_catches_interrupt (body : Except RenderExn Unit)
    (h : body = .error .terminator ∨ body = .error .tclError) :
    drawHandle body = .stopped ∧ ∀ e, drawHandle body ≠ .raised e := by
  rcases h with h | h <;> subst h <;> exact ⟨rfl, fun e => by simp [drawHandle]⟩

/-- C7 witness: a `Terminator` raised while drawing yields the stopped
outcome and is not propagated. -/
theorem C7_draw_catches_interrupt_witness :
    drawHandle (.error .terminator) = .stopped ∧
    ∀ e, drawHandle (Except.error RenderExn.terminator) ≠ .raised e :=
  C7_draw_catches_interrupt (.error .terminator) (Or.inl rfl)

/-- C8: for every non-empty alphabet and every pair of random draws, the
`PseudoRandomAlphabet` construction succeeds, its axiom is an element of the
alphabet, and its productions mapping contains the axiom as a key (so in
particular for the singleton alphabet `["a"]` the axiom is `"a"` and `"a"` is
a key of the productions). -/
theorem C8_pseudo_random (alphabet : List String) (i j : Nat)
    (h : alphabet ≠ []) :
    ∃ g, mkPseudoRandomAlphabet alphabet i j = some g ∧
      g.start ∈ alphabet ∧ (g.productions.lookup g.start).isSome := by
  have hlen : 0 < alphabet.length := List.length_pos.mpr h
  have hlen2 : 0 < (alphabet ++ operatorValues).length := by
    simp [List.length_append]
    omega
  refine ⟨{ start := alphabet.get ⟨i % alphabet.length, Nat.mod_lt _ hlen⟩,
            productions :=
              [(alphabet.get ⟨i % alphabet.length, Nat.mod_lt _ hlen⟩,
                (alphabet ++ operatorValues).get
                  ⟨j % (alphabet ++ operatorValues).length,
                    Nat.mod_lt _ hlen2⟩)] }, ?_, ?_, ?_⟩
  · simp [mkPseudoRandomAlphabet, randomChoice, hlen, hlen2]
  · exact List.get_mem _ _ _
  · simp [List.lookup]

/-- C8 witness: the singleton alphabet `["a"]` yields a grammar whose axiom
lies in `["a"]` (hence equals `"a"`) and whose productions contain that
axiom as a key. -/
theorem C8_pseudo_random_witness :
    ∃ g, mkPseudoRandomAlphabet ["a"] 0 0 = some g ∧
      g.start ∈ ["a"] ∧ (g.productions.lookup g.start).isSome :=
  C8_pseudo_random ["a"] 0 0 (by simp)

/-- C9: for every grammar, zero rewriting rounds perform no substitution:
`apply(0)` returns the axiom unchanged. -/
theorem C9_apply_zero (g : Lsystem) : applyRounds g 0 = g.start := rfl

/-- C10: constructing a `PseudoRandomAlphabet` from the empty alphabet fails
(Python's `random.choice` raises `IndexError` on an empty sequence) for every
random draw: no grammar is produced. -/
theorem C10_empty_alphabet (i j : Nat) :
    mkPseudoRandomAlphabet [] i j = none := rfl

end LSystems
